import Mathlib

/-!
Verification of the Merkle inclusion-proof handler in
`src/core/src/apps/ethereum/verify_merkle_proof.py`.

The handler's entire body is a single return statement:

    async def verify_merkle_proof(ctx):
        return Success(message="Message verified")

We embed the handler three ways, all with the same body: a pure function, a
state-passing form (to express absence of hidden state and of input mutation),
and an instrumented form that counts hash invocations and byte-comparison
operations. The Merkle folding algorithm described in the design document is
absent from the source, so the definitions needed to phrase hypotheses about
"correct" proofs are modelled from the spec and clearly marked as such.
-/

set_option maxRecDepth 4000

namespace TrezorMerkle

/-- Direction tag of a proof step. Modelled from the spec (§3): `direction`
indicates whether the sibling is the left or right operand when hashing. -/
inductive Direction where
  | left : Direction
  | right : Direction
deriving DecidableEq, Repr

/-- A proof step. Modelled from the spec (§3): a pair of a sibling hash (byte
sequence, each byte a `Nat` below 256) and a direction. -/
structure ProofStep where
  siblingHash : List Nat
  direction : Direction
deriving DecidableEq, Repr

/-- The decoded request context. The source handler receives a single `ctx`
argument; per the spec's interface contract (§6) the collaborator decodes it
into a leaf payload, a proof path, a trusted root and the configured maximum
depth. The handler body reads none of these fields. -/
structure Ctx where
  leaf : List Nat
  path : List ProofStep
  root : List Nat
  maxDepth : Nat
deriving DecidableEq, Repr

/-- Result type of the handler: the source constructs `Success(message=...)`,
a protobuf message carrying one string field. No other outcome is constructed
anywhere in the source file. -/
inductive HandlerResult where
  | success : String → HandlerResult
deriving DecidableEq, Repr

/-- The one message string the source ever builds. -/
def successMessage : String := "Message verified"

/-- Embedding of `verify_merkle_proof` from
`src/core/src/apps/ethereum/verify_merkle_proof.py`: the body is exactly
`return Success(message="Message verified")`, independent of `ctx`. -/
def verify_merkle_proof (ctx : Ctx) : HandlerResult :=
  HandlerResult.success successMessage

/-- State-passing embedding of the same handler body: it threads an opaque
ambient state `s` and returns the context it was handed, so that freedom from
hidden state and from input mutation are expressible. The source body contains
no assignment and touches no global, so both pass through unchanged. -/
def verify_merkle_proof_exec {σ : Type} (ctx : Ctx) (s : σ) :
    HandlerResult × Ctx × σ :=
  (HandlerResult.success successMessage, ctx, s)

/-- Instrumented embedding of the same handler body: alongside the result it
counts, in order, the number of hash-primitive invocations and the number of
byte-comparison operations the body performs. The source body is a single
return statement that calls neither `sha3_256` (imported but unused) nor any
comparison, so both counts are zero. -/
def verify_merkle_proof_instr (ctx : Ctx) : HandlerResult × Nat × Nat :=
  (HandlerResult.success successMessage, 0, 0)

/-- Modelled from the spec: node folding (§4.1). Given the running value `R`
and step `(S, dir)`, the next running value is `hash(R ++ S)` when
`dir = RIGHT` and `hash(S ++ R)` when `dir = LEFT`. The source contains no
such code; this definition exists only to phrase the claims' hypotheses. -/
def foldStep (hash : List Nat → List Nat) (running : List Nat)
    (step : ProofStep) : List Nat :=
  match step.direction with
  | Direction.right => hash (running ++ step.siblingHash)
  | Direction.left => hash (step.siblingHash ++ running)

/-- Modelled from the spec: the root reached by seeding `running = hash(leaf)`
and folding every step of the path in order (§4.2, steps 3 and 4). -/
def computeRoot (hash : List Nat → List Nat) (leaf : List Nat)
    (path : List ProofStep) : List Nat :=
  path.foldl (foldStep hash) (hash leaf)

/-- Modelled from the spec: a fixed 32-byte test hash function (§8 uses such a
fixture for concrete scenarios), used only to build concrete inputs. -/
def testHash (b : List Nat) : List Nat :=
  (List.range 32).map
    (fun i => (b.foldl (fun a x => (a * 31 + x) % 256) 7 + i) % 256)

/-- A 32-byte all-zero value, used as a trusted root in concrete inputs. -/
def zeroRoot : List Nat := List.replicate 32 0

/-- Flip the lowest bit of the first byte of a byte sequence. -/
def flipLowBitHead : List Nat → List Nat
  | [] => []
  | x :: xs => (x ^^^ 1) :: xs

/-- Concrete context with a correctly constructed one-step proof: the trusted
root is literally the fold of the leaf with the sibling. -/
def ctx1 : Ctx :=
  ⟨[1], [⟨testHash [2], Direction.right⟩],
    computeRoot testHash [1] [⟨testHash [2], Direction.right⟩], 8⟩

/-- Concrete context with an empty path whose root differs from the leaf hash. -/
def ctx2 : Ctx := ⟨[1], [], zeroRoot, 8⟩

/-- Concrete context whose two-step path exceeds the maximum depth of 1. -/
def ctx3 : Ctx :=
  ⟨[1], [⟨zeroRoot, Direction.left⟩, ⟨zeroRoot, Direction.left⟩], zeroRoot, 1⟩

/-- A sibling hash one byte shorter than the 32-byte output width. -/
def shortSibling : List Nat := List.replicate 31 0

/-- Concrete context carrying the under-width sibling hash. -/
def ctx4 : Ctx := ⟨[1], [⟨shortSibling, Direction.right⟩], zeroRoot, 8⟩

/-- Concrete context on which the hash-mismatch rejection condition holds. -/
def ctx5 : Ctx := ⟨[2], [], zeroRoot, 4⟩

/-- The sibling value of the verified scenario behind `ctx6`. -/
def s1 : List Nat := testHash [9]

/-- The root of the verified scenario behind `ctx6`, before corruption. -/
def goodRoot : List Nat := computeRoot testHash [1] [⟨s1, Direction.right⟩]

/-- The verified scenario of `goodRoot` with one bit of the sibling flipped. -/
def ctx6 : Ctx :=
  ⟨[1], [⟨flipLowBitHead s1, Direction.right⟩], goodRoot, 8⟩

/-- Claim C1: for every hash function and every context whose trusted root is
correctly constructed — computed by seeding the running value with the hash of
the leaf and folding each step in path order — and whose path respects the
depth bound, the handler returns the success outcome. This holds because the
handler returns `Success "Message verified"` unconditionally. -/
theorem c1_correct_proof_verified (hash : List Nat → List Nat) (ctx : Ctx)
    (hroot : ctx.root = computeRoot hash ctx.leaf ctx.path)
    (hdepth : ctx.path.length ≤ ctx.maxDepth) :
    verify_merkle_proof ctx = HandlerResult.success successMessage := rfl

/-- Witness for C1 at the concrete context `ctx1`, whose root is by definition
the fold of its leaf along its path under `testHash`. -/
theorem c1_correct_proof_verified_witness :
    (ctx1.root = computeRoot testHash ctx1.leaf ctx1.path ∧
      ctx1.path.length ≤ ctx1.maxDepth) ∧
    verify_merkle_proof ctx1 = HandlerResult.success successMessage :=
  ⟨⟨rfl, by decide⟩, c1_correct_proof_verified testHash ctx1 rfl (by decide)⟩

/-- Claim C2, failing evaluation: on `ctx2` the hash of the leaf differs from
the trusted root and the path is empty, yet the handler returns the success
outcome rather than a hash-mismatch rejection — no rejection outcome even
exists in the source. -/
theorem c2_empty_path_mismatch_accepted :
    testHash ctx2.leaf ≠ ctx2.root ∧ ctx2.path = [] ∧
    verify_merkle_proof ctx2 = HandlerResult.success successMessage :=
  ⟨by decide, rfl, rfl⟩

/-- Claim C3, failing evaluation: `ctx3` has a path strictly longer than its
maximum depth, yet the handler returns the success outcome rather than a
malformed-path rejection. -/
theorem c3_overlong_path_accepted :
    ctx3.maxDepth < ctx3.path.length ∧
    verify_merkle_proof ctx3 = HandlerResult.success successMessage :=
  ⟨by decide, rfl⟩

/-- Claim C4, failing evaluation: `ctx4` carries a sibling hash one byte
shorter than the 32-byte output width. The handler indeed never invokes the
hash function (the instrumented count is zero), but instead of a
malformed-path rejection it returns the success outcome. -/
theorem c4_short_sibling_accepted :
    shortSibling.length = 31 ∧
    verify_merkle_proof_instr ctx4 = (HandlerResult.success successMessage, 0, 0) :=
  ⟨by decide, rfl⟩

/-- Claim C5, failing evaluation: on `ctx5` the hash-mismatch rejection
condition holds — the recomputed value, here just the hash of the leaf,
disagrees with the trusted root — yet the handler returns the success
outcome, so a rejection condition is surfaced as success. -/
theorem c5_rejection_surfaced_as_success :
    computeRoot testHash ctx5.leaf ctx5.path ≠ ctx5.root ∧
    verify_merkle_proof ctx5 = HandlerResult.success successMessage :=
  ⟨by decide, rfl⟩

/-- Claim C6, failing evaluation: `ctx6` is the verified scenario behind
`goodRoot` with one bit of the sibling hash flipped; the recomputed root now
differs from the trusted root, yet the handler returns the success outcome
rather than a hash-mismatch rejection. -/
theorem c6_corrupted_sibling_accepted :
    computeRoot testHash [1] [⟨s1, Direction.right⟩] = goodRoot ∧
    computeRoot testHash ctx6.leaf ctx6.path ≠ ctx6.root ∧
    verify_merkle_proof ctx6 = HandlerResult.success successMessage :=
  ⟨rfl, by decide, rfl⟩

/-- Claim C7: determinism. In the state-passing embedding the verdict is
independent of the ambient state, and two runs on the same decoded context —
whatever states they start from — return the same result. -/
theorem c7_deterministic {σ : Type} (ctx : Ctx) (s₁ s₂ : σ) :
    (verify_merkle_proof_exec ctx s₁).1 = (verify_merkle_proof_exec ctx s₂).1 ∧
    (verify_merkle_proof_exec ctx s₁).1 = verify_merkle_proof ctx :=
  ⟨rfl, rfl⟩

/-- Claim C8: the handler mutates nothing. In the state-passing embedding the
context — leaf, every proof step, root and depth bound — and the ambient state
come back byte-for-byte identical. -/
theorem c8_no_input_mutation {σ : Type} (ctx : Ctx) (s : σ) :
    (verify_merkle_proof_exec ctx s).2.1 = ctx ∧
    (verify_merkle_proof_exec ctx s).2.2 = s :=
  ⟨rfl, rfl⟩

/-- Claim C9, failing evaluation: the handler performs no final comparison at
all. For every context the instrumented embedding records zero hash
invocations and zero comparison operations before returning success, so the
constant-time comparison of a recomputed running hash against the trusted
root that the claim describes does not exist in the source. -/
theorem c9_no_comparison_performed (ctx : Ctx) :
    verify_merkle_proof_instr ctx = (HandlerResult.success successMessage, 0, 0) :=
  rfl

/-- Claim C10: the handler returns `Success "Message verified"`
unconditionally — the same constant for any two contexts — and performs no
hash computation and no comparison before returning. -/
theorem c10_unconditional_success (ctx ctx' : Ctx) :
    verify_merkle_proof ctx = HandlerResult.success successMessage ∧
    verify_merkle_proof ctx = verify_merkle_proof ctx' ∧
    verify_merkle_proof_instr ctx = (verify_merkle_proof ctx, 0, 0) :=
  ⟨rfl, rfl, rfl⟩

end TrezorMerkle
